import Mathlib

/-!
Verification of `scripts/bench_check.py` (benchmark threshold checker) and of
the prompt suffix filter described in the specification.

The Python script is embedded shallowly: JSON values become an inductive type,
the file system becomes a function from path strings to optional file data,
Python floats become rationals, and the script body `main` becomes a pure
function threading the file-system state and returning the printed lines
together with either a return code or an uncaught Python exception.
-/

/-- A JSON value, as produced by `json.load`: objects become Python dicts
(association lists here), numbers become Python ints/floats (rationals here),
`null` becomes Python `None`, and booleans become Python `bool`. -/
inductive Json where
  | null : Json
  | bool (b : Bool) : Json
  | num (q : ℚ) : Json
  | str (s : String) : Json
  | arr (elems : List Json) : Json
  | obj (fields : List (String × Json)) : Json

/-- Key lookup in a JSON object, modelling Python `dict` access (keys in a
parsed JSON dict are unique, so first match suffices). -/
def lookupKV : List (String × Json) → String → Option Json
  | [], _ => none
  | (k, v) :: rest, key => if k = key then some v else lookupKV rest key

/-- The Python exceptions the script can raise and leave uncaught. -/
inductive PyError where
  /-- `AttributeError`: calling `.get` on a value that is not a dict. -/
  | attributeError : PyError
  /-- `TypeError`: dividing a non-numeric value by a float. -/
  | typeError : PyError
  /-- `json.JSONDecodeError`: the file contents are not valid JSON. -/
  | jsonDecodeError : PyError
  /-- `FileNotFoundError`: `open` on a path that does not exist. -/
  | fileNotFoundError : PyError
deriving DecidableEq

/-- Contents of a file on disk, as far as `json.load` can see them: either
bytes that parse as a JSON value, or bytes that do not. -/
inductive FileData where
  | json (j : Json) : FileData
  | notJson : FileData

/-- The file system: a map from path strings to the data at that path, or
`none` when no file exists there. -/
def FS : Type := String → Option FileData

/-- `os.path.exists`, threading the file-system state. -/
def osPathExists (path : String) (fs : FS) : Bool × FS :=
  ((fs path).isSome, fs)

/-- `open(path, "r")` followed by `json.load`, threading the file-system
state. A vanished file raises `FileNotFoundError`; contents that are not
valid JSON raise `json.JSONDecodeError`. Reading does not change the state. -/
def jsonLoad (path : String) (fs : FS) : Except PyError Json × FS :=
  (match fs path with
   | none => Except.error PyError.fileNotFoundError
   | some FileData.notJson => Except.error PyError.jsonDecodeError
   | some (FileData.json j) => Except.ok j, fs)

/-- `b.startswith("/")` on a Python string (the POSIX path separator). -/
def pyStartsWithSlash (s : String) : Bool :=
  s.data.head? = some '/'

/-- `b.endswith("/")` on a Python string (the POSIX path separator). -/
def pyEndsWithSlash (s : String) : Bool :=
  s.data.getLast? = some '/'

/-- One step of POSIX `os.path.join`: append component `b` to the path built
so far. An absolute component discards everything before it; otherwise a
separator is inserted unless one is already present or the path is empty. -/
def joinTwo (r b : String) : String :=
  if pyStartsWithSlash b then b
  else if r = "" ∨ pyEndsWithSlash r then r ++ b
  else r ++ "/" ++ b

/-- `os.path.join("target", "criterion", name, "new", "estimates.json")`. -/
def defaultEstimatesPath (name : String) : String :=
  joinTwo (joinTwo (joinTwo (joinTwo "target" "criterion") name) "new") "estimates.json"

/-- The parsed command-line arguments of `bench_check.py`. -/
structure Args where
  name : String
  thresholdMs : ℚ
  path : Option String

/-- `argparse` parsing of the three optional flags, with the declared
defaults: `--name` defaults to `"engine_render_default"`, `--threshold-ms`
to `50.0`, `--path` to `None`. -/
def parseArgs (name : Option String) (thresholdMs : Option ℚ)
    (path : Option String) : Args :=
  Args.mk (name.getD "engine_render_default") (thresholdMs.getD 50) path

/-- The path the script reads: `args.path` when given, otherwise the default
criterion layout derived from the benchmark name. -/
def resolvePath (args : Args) : String :=
  match args.path with
  | some p => p
  | none => defaultEstimatesPath args.name

/-- `data.get("mean", {}).get("point_estimate")` followed by the uses the
script makes of the result: `ok none` is Python `None` (field absent, or
present and JSON `null`); `ok (some q)` is a numeric value (a Python bool
divides as 1 or 0); an error is the uncaught exception the corresponding
Python expression raises (`.get` on a non-dict, or dividing a string, list
or dict by a float). -/
def pyGetMeanNs (data : Json) : Except PyError (Option ℚ) :=
  match data with
  | Json.obj kvs =>
    match (lookupKV kvs "mean").getD (Json.obj []) with
    | Json.obj kvs2 =>
      match lookupKV kvs2 "point_estimate" with
      | none => Except.ok none
      | some Json.null => Except.ok none
      | some (Json.num q) => Except.ok (some q)
      | some (Json.bool b) => Except.ok (some (if b then 1 else 0))
      | some _ => Except.error PyError.typeError
    | _ => Except.error PyError.attributeError
  | _ => Except.error PyError.attributeError

/-- Round a rational to the nearest integer, ties to even: the rounding mode
of Python float formatting. -/
def rhe (q : ℚ) : ℤ :=
  let f := ⌊q⌋
  let r := q - f
  if r < 1 / 2 then f
  else if 1 / 2 < r then f + 1
  else if f % 2 = 0 then f else f + 1

/-- Render a natural number below 1000 as exactly three digits. -/
def pad3 (n : ℕ) : String :=
  if n < 10 then "00" ++ toString n
  else if n < 100 then "0" ++ toString n
  else toString n

/-- Python `f"{q:.3f}"`: fixed-point rendering with exactly three digits
after the decimal point, ties to even. -/
def fmt3 (q : ℚ) : String :=
  let n := (rhe (|q| * 1000)).toNat
  (if q < 0 then "-" else "") ++ toString (n / 1000) ++ "." ++ pad3 (n % 1000)

/-- The line `f"mean: {mean_ms:.3f} ms (threshold {threshold:.3f} ms)"`. -/
def meanLine (meanMs threshold : ℚ) : String :=
  "mean: " ++ fmt3 meanMs ++ " ms (threshold " ++ fmt3 threshold ++ " ms)"

/-- The message printed when the estimates file is missing. -/
def notFoundMsg (path : String) : String :=
  "estimates.json not found at " ++ path ++ ". Run \x27cargo bench\x27 first."

/-- The diagnostic printed when `mean.point_estimate` cannot be read. -/
def noMeanMsg : String :=
  "Could not read mean.point_estimate from estimates.json"

/-- The failure message printed before returning 1. -/
def failMsg : String := "FAIL: benchmark exceeds threshold"

/-- The success message printed before returning 0. -/
def okMsg : String := "OK: benchmark within threshold"

/-- Outcome of one invocation: either `main` returned a code after printing
some lines, or an exception escaped `main` after printing some lines. -/
inductive RunResult where
  | exited (output : List String) (code : ℤ) : RunResult
  | crashed (output : List String) (e : PyError) : RunResult
deriving DecidableEq

/-- The process exit code the operating system sees: `sys.exit(main())` on a
normal return, and the interpreter exit code 1 on an uncaught exception. -/
def processExitCode : RunResult → ℤ
  | RunResult.exited _ code => code
  | RunResult.crashed _ _ => 1

/-- The lines printed to standard output before the run ended. -/
def outputOf : RunResult → List String
  | RunResult.exited out _ => out
  | RunResult.crashed out _ => out

/-- The body of `main` in `bench_check.py` (the name `main` is reserved in
Lean), from the point where the arguments have been parsed: resolve the
path, check existence (exit 2), load the JSON, extract
`mean.point_estimate` (exit 3 when it is `None`), convert to milliseconds,
print the mean line, and compare with the threshold (exit 1 or 0). The
file-system state is threaded and returned. -/
def benchMain (args : Args) (fs : FS) : RunResult × FS :=
  let path := resolvePath args
  let e := osPathExists path fs
  if e.1 then
    let l := jsonLoad path e.2
    match l.1 with
    | Except.error err => (RunResult.crashed [] err, l.2)
    | Except.ok data =>
      match pyGetMeanNs data with
      | Except.error err => (RunResult.crashed [] err, l.2)
      | Except.ok none => (RunResult.exited [noMeanMsg] 3, l.2)
      | Except.ok (some meanNs) =>
        let meanMs := meanNs / 1000000
        let line := meanLine meanMs args.thresholdMs
        if meanMs > args.thresholdMs then
          (RunResult.exited [line, failMsg] 1, l.2)
        else
          (RunResult.exited [line, okMsg] 0, l.2)
  else
    (RunResult.exited [notFoundMsg path] 2, e.2)

/-- An estimates file whose mean point estimate is the number `q`. -/
def goodData (q : ℚ) : Json :=
  Json.obj [("mean", Json.obj [("point_estimate", Json.num q)])]

/-- An estimates file of shape `{"mean": {"point_estimate": null}}`. -/
def nullData : Json :=
  Json.obj [("mean", Json.obj [("point_estimate", Json.null)])]

/-- An estimates file of shape `{"mean": {}}`: the point estimate is absent. -/
def missingData : Json :=
  Json.obj [("mean", Json.obj [])]

/-- A file system holding the same data at every path. -/
def constFS (fd : FileData) : FS := fun _ => some fd

/-- A file system with no files at all. -/
def emptyFS : FS := fun _ => none

/-- Concrete arguments used to instantiate the claim theorems. -/
def wArgs : Args := Args.mk "engine_render_default" 50 (some "estimates.json")

/-- The exit-code taxonomy of a run outcome: a normal return carries code 0
with the success message, code 1 with the failure message, code 2 with the
not-found message, or code 3 with the missing-field diagnostic; an uncaught
exception is reported by the interpreter as process exit code 1. -/
def exitTaxonomy : RunResult → Prop
  | RunResult.exited out c =>
      (c = 0 ∧ okMsg ∈ out) ∨ (c = 1 ∧ failMsg ∈ out) ∨
      (c = 2 ∧ ∃ p, out = [notFoundMsg p]) ∨ (c = 3 ∧ out = [noMeanMsg])
  | RunResult.crashed out e => processExitCode (RunResult.crashed out e) = 1

/-- A rendered number with exactly three digits after the decimal point. -/
def threeDecimals (s : String) : Prop :=
  ∃ a b : String, s = a ++ "." ++ b ∧ b.length = 3 ∧ b.data.all Char.isDigit = true

/-- Modelled from the spec: the prompt suffix filter script is not among the
sources (only the benchmark checker is under `src/`), so its trimming of
leading and trailing whitespace from the prompt text (Python `str.strip`)
is modelled here from the specification's words. -/
def stripWS (s : String) : String :=
  String.mk (((s.data.dropWhile Char.isWhitespace).reverse.dropWhile
    Char.isWhitespace).reverse)

/-- Modelled from the spec: the check that the text ends with the
two-character literal suffix `-u` (Python `str.endswith("-u")`). -/
def endsWithDashU (s : String) : Bool :=
  s.data.reverse.take 2 = ['u', '-']

/-- Modelled from the spec: the fixed multi-line advisory string instructing
maximal extended reasoning effort. Its exact wording is an opaque contract
with an external consumer that the sources do not record; the claims depend
only on it being one fixed string. -/
def ultrathinkAdvisory : String :=
  "Use maximal extended reasoning effort on this request.\n" ++
  "Think as long and as deeply as the task requires before answering."

/-- Modelled from the spec: the `"prompt"` field of the input document read
as a string, treated as the empty string when absent. -/
def promptOf (doc : Json) : String :=
  match doc with
  | Json.obj kvs =>
    match lookupKV kvs "prompt" with
    | some (Json.str s) => s
    | _ => ""
  | _ => ""

/-- Modelled from the spec: what arrives on the filter's standard input —
either a well-formed JSON document or malformed bytes. -/
inductive FilterInput where
  | malformed : FilterInput
  | doc (j : Json) : FilterInput

/-- Modelled from the spec: the prompt suffix filter. On malformed JSON it
writes nothing to standard output (a diagnostic goes to the error stream)
and exits with a non-zero status; on a well-formed document it writes the
advisory exactly when the trimmed prompt ends in `-u`, and exits 0. The
result is the pair (standard output, exit status). -/
def promptFilter (input : FilterInput) : String × ℤ :=
  match input with
  | FilterInput.malformed => ("", 1)
  | FilterInput.doc j =>
    if endsWithDashU (stripWS (promptOf j)) then (ultrathinkAdvisory, 0)
    else ("", 0)

/-- Rounding an integer changes nothing. -/
theorem rhe_intCast (n : ℤ) : rhe (n : ℚ) = n := by
  unfold rhe
  norm_num

/-- `fmt3` at a natural number renders the number followed by `.000`. -/
theorem fmt3_natCast (m : ℕ) : fmt3 (m : ℚ) = toString m ++ "." ++ "000" := by
  have h1 : |(m : ℚ)| * 1000 = ((m * 1000 : ℕ) : ℚ) := by
    rw [abs_of_nonneg (by positivity)]; push_cast; ring
  have h2 : rhe ((m * 1000 : ℕ) : ℚ) = ((m * 1000 : ℕ) : ℤ) := by
    have h := rhe_intCast ((m * 1000 : ℕ) : ℤ)
    rw [← h]; norm_cast
  have h3 : ¬ ((m : ℚ) < 0) := not_lt.mpr (by positivity)
  have h4 : m * 1000 / 1000 = m := Nat.mul_div_cancel m (by norm_num)
  have h5 : m * 1000 % 1000 = 0 := Nat.mul_mod_left m 1000
  simp only [fmt3, h1, h2, Int.toNat_natCast, h4, h5, if_neg h3]
  rfl

example : fmt3 ((60000000 : ℚ) / 1000000) = "60.000" := by
  have h : ((60000000 : ℚ) / 1000000) = ((60 : ℕ) : ℚ) := by norm_num
  rw [h, fmt3_natCast]; decide

example : defaultEstimatesPath "engine_render_default" =
    "target/criterion/engine_render_default/new/estimates.json" := by decide
example : defaultEstimatesPath "/abs" = "/abs/new/estimates.json" := by decide

/-- C1: once the threshold comparison is reached with a numeric mean value,
a mean strictly above the threshold (after dividing by 1,000,000) prints the
failure message and returns 1, and a mean at or below it prints the success
message and returns 0. -/
theorem C1_threshold_comparison (args : Args) (fs : FS) (data : Json) (q : ℚ)
    (h : fs (resolvePath args) = some (FileData.json data))
    (hq : pyGetMeanNs data = Except.ok (some q)) :
    (benchMain args fs).1 =
      if q / 1000000 > args.thresholdMs then
        RunResult.exited [meanLine (q / 1000000) args.thresholdMs, failMsg] 1
      else
        RunResult.exited [meanLine (q / 1000000) args.thresholdMs, okMsg] 0 := by
  simp only [benchMain, osPathExists, jsonLoad, h, hq, Option.isSome_some, if_true]
  split <;> rfl

/-- Witness for C1 at a concrete input: a 60,000,000 ns mean against a 50 ms
threshold fails with exit code 1. -/
theorem C1_witness :
    (benchMain wArgs (constFS (FileData.json (goodData 60000000)))).1 =
      RunResult.exited ["mean: 60.000 ms (threshold 50.000 ms)", failMsg] 1 := by
  have h := C1_threshold_comparison wArgs (constFS (FileData.json (goodData 60000000)))
    (goodData 60000000) 60000000 rfl rfl
  rw [h, if_pos (by norm_num [wArgs])]
  have h60 : (60000000 : ℚ) / 1000000 = ((60 : ℕ) : ℚ) := by norm_num
  have h50 : wArgs.thresholdMs = ((50 : ℕ) : ℚ) := by norm_num [wArgs]
  rw [meanLine, h60, h50, fmt3_natCast, fmt3_natCast]
  decide

/-- C4: when the resolved path has no file, the instructional message is
printed and the return code is 2, for every name and threshold. -/
theorem C4_missing_file (args : Args) (fs : FS)
    (h : fs (resolvePath args) = none) :
    (benchMain args fs).1 = RunResult.exited [notFoundMsg (resolvePath args)] 2 := by
  simp only [benchMain, osPathExists, h, Option.isSome_none]
  rfl

/-- Witness for C4 at a concrete input: an empty file system yields exit 2. -/
theorem C4_witness :
    (benchMain (Args.mk "somebench" 7 none) emptyFS).1 =
      RunResult.exited
        [notFoundMsg "target/criterion/somebench/new/estimates.json"] 2 := by
  have h := C4_missing_file (Args.mk "somebench" 7 none) emptyFS rfl
  rw [h]
  rfl

/-- C8: the benchmark checker never mutates the file system: the state after
the run is the state before it. -/
theorem C8_no_mutation (args : Args) (fs : FS) : (benchMain args fs).2 = fs := by
  cases hfs : fs (resolvePath args) with
  | none => simp [benchMain, osPathExists, hfs]
  | some fd =>
    cases fd with
    | notJson => simp [benchMain, osPathExists, jsonLoad, hfs]
    | json data =>
      cases hm : pyGetMeanNs data with
      | error e => simp [benchMain, osPathExists, jsonLoad, hfs, hm]
      | ok o =>
        cases o with
        | none => simp [benchMain, osPathExists, jsonLoad, hfs, hm]
        | some q =>
          simp only [benchMain, osPathExists, jsonLoad, hfs, hm, Option.isSome_some, if_true]
          split <;> rfl

/-- C9: with an explicit path the benchmark name has no influence: two runs
differing only in the name produce the same printed output, return code and
final file-system state. -/
theorem C9_name_noninterference (n1 n2 : String) (th : ℚ) (p : String) (fs : FS) :
    benchMain (Args.mk n1 th (some p)) fs = benchMain (Args.mk n2 th (some p)) fs := rfl

/-- C10: a file of shape `{"mean": {"point_estimate": null}}` is treated
exactly like a missing field: the diagnostic is printed, the return code is
3, and the outcome coincides with that of a run on a file lacking the field. -/
theorem C10_null_is_missing (args : Args) (fs fs2 : FS)
    (h : fs (resolvePath args) = some (FileData.json nullData))
    (h2 : fs2 (resolvePath args) = some (FileData.json missingData)) :
    (benchMain args fs).1 = RunResult.exited [noMeanMsg] 3 ∧
    (benchMain args fs).1 = (benchMain args fs2).1 := by
  constructor
  · simp only [benchMain, osPathExists, jsonLoad, h, Option.isSome_some, if_true]
    rfl
  · simp only [benchMain, osPathExists, jsonLoad, h, h2, Option.isSome_some, if_true]
    rfl

/-- Witness for C10 at a concrete input: a null point estimate yields the
diagnostic and exit 3, matching the missing-field run. -/
theorem C10_witness :
    (benchMain wArgs (constFS (FileData.json nullData))).1 =
        RunResult.exited [noMeanMsg] 3 ∧
    (benchMain wArgs (constFS (FileData.json nullData))).1 =
        (benchMain wArgs (constFS (FileData.json missingData))).1 :=
  C10_null_is_missing wArgs (constFS (FileData.json nullData))
    (constFS (FileData.json missingData)) rfl rfl

/-- Counterexample to C2: a file that exists but is not valid JSON does not
produce the diagnostic and return code 3; `json.load` raises an uncaught
`json.JSONDecodeError`, nothing is printed, and the interpreter exits 1. -/
theorem C2_counterexample :
    (benchMain wArgs (constFS FileData.notJson)).1 =
      RunResult.crashed [] PyError.jsonDecodeError ∧
    processExitCode (benchMain wArgs (constFS FileData.notJson)).1 = 1 ∧
    (benchMain wArgs (constFS FileData.notJson)).1 ≠
      RunResult.exited [noMeanMsg] 3 := by
  refine ⟨rfl, rfl, ?_⟩
  intro h
  exact RunResult.noConfusion h

/-- C2 as amended: when the resolved file exists and parses as JSON, a
missing (or null) `mean.point_estimate` prints the diagnostic and returns 3;
every other structure mismatch (top level not a dict, `"mean"` value not a
dict, point estimate of a non-numeric type) raises an uncaught exception,
printing nothing, and the same holds for a file that is not valid JSON. -/
theorem C2_amended_malformed (args : Args) (fs : FS) :
    (∀ data : Json, fs (resolvePath args) = some (FileData.json data) →
      (pyGetMeanNs data = Except.ok none →
        (benchMain args fs).1 = RunResult.exited [noMeanMsg] 3) ∧
      (∀ e : PyError, pyGetMeanNs data = Except.error e →
        (benchMain args fs).1 = RunResult.crashed [] e)) ∧
    (fs (resolvePath args) = some FileData.notJson →
      (benchMain args fs).1 = RunResult.crashed [] PyError.jsonDecodeError) := by
  constructor
  · intro data h
    constructor
    · intro hm
      simp only [benchMain, osPathExists, jsonLoad, h, hm, Option.isSome_some, if_true]
    · intro e hm
      simp only [benchMain, osPathExists, jsonLoad, h, hm, Option.isSome_some, if_true]
  · intro h
    simp only [benchMain, osPathExists, jsonLoad, h, Option.isSome_some, if_true]

/-- Witness for the amended C2: a top-level JSON list crashes with
`AttributeError`, and a present-but-empty `"mean"` dict yields exit 3. -/
theorem C2_witness :
    (benchMain wArgs (constFS (FileData.json (Json.arr [])))).1 =
      RunResult.crashed [] PyError.attributeError ∧
    (benchMain wArgs (constFS (FileData.json missingData))).1 =
      RunResult.exited [noMeanMsg] 3 :=
  ⟨((C2_amended_malformed wArgs (constFS (FileData.json (Json.arr [])))).1
      (Json.arr []) rfl).2 PyError.attributeError rfl,
   ((C2_amended_malformed wArgs (constFS (FileData.json missingData))).1
      missingData rfl).1 rfl⟩

/-- Counterexample to C3: on an existing file that is not valid JSON the
process exit code is 1 even though no threshold comparison took place — the
run crashed before printing anything, so exit code 1 does not imply a
threshold regression, and the crash is not one of the four return paths. -/
theorem C3_counterexample :
    processExitCode (benchMain wArgs (constFS FileData.notJson)).1 = 1 ∧
    (benchMain wArgs (constFS FileData.notJson)).1 =
      RunResult.crashed [] PyError.jsonDecodeError ∧
    outputOf (benchMain wArgs (constFS FileData.notJson)).1 = [] :=
  ⟨rfl, rfl, rfl⟩

/-- C3 as amended: every invocation that returns normally exits with a code
in {0, 1, 2, 3} carrying the matching message (1 only together with the
failure message, so only for a threshold regression); invocations that hit
malformed data instead crash with an uncaught exception, which the
interpreter reports as process exit code 1. -/
theorem C3_amended_taxonomy (args : Args) (fs : FS) :
    exitTaxonomy (benchMain args fs).1 := by
  cases hfs : fs (resolvePath args) with
  | none =>
    simp only [benchMain, osPathExists, hfs, Option.isSome_none]
    exact Or.inr (Or.inr (Or.inl ⟨rfl, resolvePath args, rfl⟩))
  | some fd =>
    cases fd with
    | notJson =>
      simp only [benchMain, osPathExists, jsonLoad, hfs, Option.isSome_some, if_true]
      rfl
    | json data =>
      cases hm : pyGetMeanNs data with
      | error e =>
        simp only [benchMain, osPathExists, jsonLoad, hfs, hm, Option.isSome_some, if_true]
        rfl
      | ok o =>
        cases o with
        | none =>
          simp only [benchMain, osPathExists, jsonLoad, hfs, hm, Option.isSome_some, if_true]
          exact Or.inr (Or.inr (Or.inr ⟨rfl, rfl⟩))
        | some q =>
          simp only [benchMain, osPathExists, jsonLoad, hfs, hm, Option.isSome_some, if_true]
          split
          · exact Or.inr (Or.inl ⟨rfl, by simp [exitTaxonomy]⟩)
          · exact Or.inl ⟨rfl, by simp [exitTaxonomy]⟩

/-- Counterexample to C5: with no explicit path and the name `"/abs"`,
`os.path.join` discards the components before the absolute one, so the
resolved path is `/abs/new/estimates.json` — an absolute path, not
`target/criterion/<name>/new/estimates.json` under the working directory. -/
theorem C5_counterexample :
    resolvePath (Args.mk "/abs" 50 none) = "/abs/new/estimates.json" ∧
    ("/abs/new/estimates.json" : String) ≠
      "target/criterion/" ++ "/abs" ++ "/new/estimates.json" := by
  exact ⟨rfl, by decide⟩

/-- C5 as amended: with no explicit path, for every benchmark name that is
nonempty and neither begins nor ends with the path separator `/`, the
checker resolves the input path to `target/criterion/<name>/new/estimates.json`
(a relative path, hence under the current working directory); the name
defaults to `"engine_render_default"` and the threshold to 50.0 ms. -/
theorem C5_amended_default_path (name : String) (th : ℚ)
    (h0 : name ≠ "") (h1 : pyStartsWithSlash name = false)
    (h2 : pyEndsWithSlash name = false) :
    resolvePath (Args.mk name th none) =
      "target/criterion/" ++ name ++ "/new/estimates.json" ∧
    parseArgs none none none = Args.mk "engine_render_default" 50 none := by
  refine ⟨?_, rfl⟩
  show defaultEstimatesPath name = _
  have hnd : name.data ≠ [] := fun hh => h0 (String.ext hh)
  have e1 : joinTwo "target" "criterion" = "target/criterion" := rfl
  have e2 : joinTwo "target/criterion" name = "target/criterion/" ++ name := by
    unfold joinTwo
    rw [h1]
    rw [if_neg (by simp), if_neg (by decide)]
    rfl
  have hne3 : ("target/criterion/" ++ name) ≠ "" := by
    intro hh
    have hd := congrArg String.data hh
    rw [String.data_append] at hd
    exact hnd (List.append_eq_nil.mp hd).2
  have hlast3 : pyEndsWithSlash ("target/criterion/" ++ name) = pyEndsWithSlash name := by
    unfold pyEndsWithSlash
    rw [String.data_append, List.getLast?_append_of_ne_nil _ hnd]
  have e3 : joinTwo ("target/criterion/" ++ name) "new" =
      "target/criterion/" ++ name ++ "/new" := by
    unfold joinTwo
    rw [if_neg (by decide), if_neg (by rw [hlast3]; simp [hne3, h2])]
    rw [String.append_assoc]
    rfl
  have hne4 : ("target/criterion/" ++ name ++ "/new") ≠ "" := by
    intro hh
    have hd := congrArg String.data hh
    rw [String.data_append] at hd
    exact absurd (List.append_eq_nil.mp hd).2 (by decide)
  have hlast4 : pyEndsWithSlash ("target/criterion/" ++ name ++ "/new") = false := by
    unfold pyEndsWithSlash
    rw [String.data_append,
      List.getLast?_append_of_ne_nil _ (by decide : ("/new" : String).data ≠ [])]
    decide
  have e4 : joinTwo ("target/criterion/" ++ name ++ "/new") "estimates.json" =
      "target/criterion/" ++ name ++ "/new/estimates.json" := by
    unfold joinTwo
    rw [if_neg (by decide), if_neg (by simp [hne4, hlast4])]
    rw [String.append_assoc, String.append_assoc]
    rfl
  unfold defaultEstimatesPath
  rw [e1, e2, e3, e4]

/-- Witness for the amended C5 at the default name. -/
theorem C5_witness :
    resolvePath (Args.mk "engine_render_default" 50 none) =
      "target/criterion/" ++ "engine_render_default" ++ "/new/estimates.json" ∧
    parseArgs none none none = Args.mk "engine_render_default" 50 none :=
  C5_amended_default_path "engine_render_default" 50 (by decide) (by decide) (by decide)

set_option maxRecDepth 4000 in
/-- `pad3` always renders exactly three digit characters. -/
theorem pad3_spec : ∀ k : ℕ, k < 1000 →
    (pad3 k).length = 3 ∧ (pad3 k).data.all Char.isDigit = true := by decide

/-- Every string `fmt3` produces has exactly three digits after the point. -/
theorem fmt3_threeDecimals (q : ℚ) : threeDecimals (fmt3 q) := by
  have h := pad3_spec ((rhe (|q| * 1000)).toNat % 1000) (Nat.mod_lt _ (by norm_num))
  exact ⟨(if q < 0 then "-" else "") ++ toString ((rhe (|q| * 1000)).toNat / 1000),
    pad3 ((rhe (|q| * 1000)).toNat % 1000), rfl, h.1, h.2⟩

/-- C6: once the threshold comparison is reached, the printed line is the
mean obtained by dividing the nanosecond value by 1,000,000 together with
the threshold, both rendered by `fmt3` with exactly three decimal places;
in particular a 60,000,000 ns mean is printed as `60.000`. -/
theorem C6_unit_conversion_and_formatting (args : Args) (fs : FS) (data : Json) (q : ℚ)
    (h : fs (resolvePath args) = some (FileData.json data))
    (hq : pyGetMeanNs data = Except.ok (some q)) :
    (∃ last code, (benchMain args fs).1 =
        RunResult.exited [meanLine (q / 1000000) args.thresholdMs, last] code) ∧
    meanLine (q / 1000000) args.thresholdMs =
      "mean: " ++ fmt3 (q / 1000000) ++ " ms (threshold " ++
        fmt3 args.thresholdMs ++ " ms)" ∧
    threeDecimals (fmt3 (q / 1000000)) ∧
    threeDecimals (fmt3 args.thresholdMs) ∧
    fmt3 ((60000000 : ℚ) / 1000000) = "60.000" := by
  refine ⟨?_, rfl, fmt3_threeDecimals _, fmt3_threeDecimals _, ?_⟩
  · by_cases hc : q / 1000000 > args.thresholdMs
    · refine ⟨failMsg, 1, ?_⟩
      simp only [benchMain, osPathExists, jsonLoad, h, hq, Option.isSome_some, if_true, hc]
    · refine ⟨okMsg, 0, ?_⟩
      simp only [benchMain, osPathExists, jsonLoad, h, hq, Option.isSome_some, if_true, hc]
      rfl
  · have h60 : ((60000000 : ℚ) / 1000000) = ((60 : ℕ) : ℚ) := by norm_num
    rw [h60, fmt3_natCast]
    decide

/-- Witness for C6 at a concrete input: mean 60,000,000 ns, threshold 50 ms. -/
theorem C6_witness :
    (∃ last code,
        (benchMain wArgs (constFS (FileData.json (goodData 60000000)))).1 =
          RunResult.exited [meanLine ((60000000 : ℚ) / 1000000) wArgs.thresholdMs,
            last] code) ∧
    meanLine ((60000000 : ℚ) / 1000000) wArgs.thresholdMs =
      "mean: " ++ fmt3 ((60000000 : ℚ) / 1000000) ++ " ms (threshold " ++
        fmt3 wArgs.thresholdMs ++ " ms)" ∧
    threeDecimals (fmt3 ((60000000 : ℚ) / 1000000)) ∧
    threeDecimals (fmt3 wArgs.thresholdMs) ∧
    fmt3 ((60000000 : ℚ) / 1000000) = "60.000" :=
  C6_unit_conversion_and_formatting wArgs (constFS (FileData.json (goodData 60000000)))
    (goodData 60000000) 60000000 rfl rfl

/-- C7 (spec-modelled): for every well-formed JSON document on standard
input, if the trimmed prompt ends with `-u` the filter writes the fixed
advisory and exits 0, and otherwise (including when the prompt field is
absent, in which case `promptOf` reads the empty string) it writes nothing
and exits 0. -/
theorem C7_prompt_suffix_filter (j : Json) :
    (endsWithDashU (stripWS (promptOf j)) = true →
      promptFilter (FilterInput.doc j) = (ultrathinkAdvisory, 0)) ∧
    (endsWithDashU (stripWS (promptOf j)) = false →
      promptFilter (FilterInput.doc j) = ("", 0)) := by
  constructor
  · intro h
    simp only [promptFilter, h, if_true]
  · intro h
    simp only [promptFilter, h, Bool.false_eq_true, if_false]

/-- Witness for C7: a prompt ending in `-u` (after trimming) triggers the
advisory; a document with no prompt field emits nothing; both exit 0. -/
theorem C7_witness :
    promptFilter (FilterInput.doc
        (Json.obj [("prompt", Json.str " review this -u ")])) =
      (ultrathinkAdvisory, 0) ∧
    promptFilter (FilterInput.doc (Json.obj [])) = ("", 0) :=
  ⟨(C7_prompt_suffix_filter (Json.obj [("prompt", Json.str " review this -u ")])).1
      (by decide),
   (C7_prompt_suffix_filter (Json.obj [])).2 (by decide)⟩
